import Mathlib

/-!
Verification of `src/services/wildwings/main.py` — a singleton process
supervisor exposing start/stop/status/logs HTTP endpoints over one
background mission worker, one child process, and a 1000-entry in-memory
log ring buffer.

Shallow embedding conventions:
* The mutable globals (`mission_thread`, `stop_mission_flag`,
  `current_process`, `is_running`, `logs`) form the record `MissionState`.
  `mission_thread` is modelled by the pair `threadSpawned` ("`mission_thread`
  is not `None`") and `threadAlive` ("`mission_thread.is_alive()`").
* External effects the Python code depends on (filesystem, `subprocess`,
  `datetime.now`, concurrent `stop_mission_flag.set()` calls from other
  request handlers, exceptions raised by library calls) are inputs, supplied
  through environment records (`MissionEnv`, `LineEvent`, `StopEnv`,
  `LogsEnv`).
* Each HTTP handler becomes a function from the environment and the current
  `MissionState` to the successor state and its JSON response (or an
  `Except` carrying the `HTTPException` that the handler raises).
* The worker `run_mission_background` is additionally given a small-step
  reading: `runMissionTrace` lists the global state after every write the
  worker performs to a modelled global, so that invariants "at every point
  of execution" can be stated and refuted.
-/

namespace WildWings

/-- Fields of a `datetime.datetime` value used by
`strftime('%Y-%m-%d %H:%M:%S')`.  Python's `datetime` guarantees
`1 <= year <= 9999`, `1 <= month <= 12`, etc., so every component prints
zero-padded to a fixed width. -/
structure DateTimeVal where
  year : Nat
  month : Nat
  day : Nat
  hour : Nat
  minute : Nat
  second : Nat
deriving DecidableEq

/-- `datetime.now().strftime('%Y-%m-%d %H:%M:%S')` (line 85): each field
zero-padded, `YYYY-MM-DD HH:MM:SS`.  Digits are produced exactly as the
format string does for valid `datetime` field ranges. -/
def strftimeYmdHMS (d : DateTimeVal) : String :=
  String.mk
    [Nat.digitChar (d.year / 1000 % 10), Nat.digitChar (d.year / 100 % 10),
     Nat.digitChar (d.year / 10 % 10), Nat.digitChar (d.year % 10), '-',
     Nat.digitChar (d.month / 10 % 10), Nat.digitChar (d.month % 10), '-',
     Nat.digitChar (d.day / 10 % 10), Nat.digitChar (d.day % 10), ' ',
     Nat.digitChar (d.hour / 10 % 10), Nat.digitChar (d.hour % 10), ':',
     Nat.digitChar (d.minute / 10 % 10), Nat.digitChar (d.minute % 10), ':',
     Nat.digitChar (d.second / 10 % 10), Nat.digitChar (d.second % 10)]

/-- Checks that a string is exactly of shape `YYYY-MM-DD HH:MM:SS`:
19 characters, decimal digits in the date/time positions, with `-`, space
and `:` separators. -/
def isTsFormat (t : String) : Bool :=
  match t.data with
  | [a, b, c, d, k1, e, f, k2, g, h, sp, i, j, c1, k, l, c2, m, n] =>
      [a, b, c, d, e, f, g, h, i, j, k, l, m, n].all Char.isDigit
        && (k1 == '-') && (k2 == '-') && (sp == ' ') && (c1 == ':') && (c2 == ':')
  | _ => false

/-- Python's `str.isspace` characters as tested by `str.strip()` (the
ASCII ones: space, tab, newline, carriage return, vertical tab, form
feed). -/
def isPyWhitespace (c : Char) : Bool :=
  c == ' ' || c == '\t' || c == '\n' || c == '\r' || c == '\x0b' || c == '\x0c'

/-- Python `line.strip()`: remove leading and trailing whitespace. -/
def pyStrip (s : String) : String :=
  String.mk (((s.data.dropWhile isPyWhitespace).reverse.dropWhile isPyWhitespace).reverse)

/-- The five module-level globals of `main.py` (lines 32-36). -/
structure MissionState where
  threadSpawned : Bool
  threadAlive : Bool
  stopFlag : Bool
  currentProcess : Option Nat
  isRunning : Bool
  logs : List String
deriving DecidableEq

/-- Python `l[-n:]` restricted to the case `n > 0` (also `l[len-n:]` for
`n ≥ len`, giving the whole list): the last `n` elements. -/
def takeLast (n : Nat) (l : List α) : List α :=
  l.drop (l.length - n)

/-- Python `xs[k:]` for an arbitrary integer start index `k`: drop the
first `k` elements when `k ≥ 0`, keep the last `-k` elements when `k < 0`. -/
def pySliceFrom (k : Int) (xs : List α) : List α :=
  if 0 ≤ k then xs.drop k.toNat else takeLast (-k).toNat xs

/-- Lines 86-91 of the worker loop: `logs.append(log_entry)` followed by
`if len(logs) > 1000: logs = logs[-1000:]`, taken together as the log
buffer's append operation (the spec's `LogBuffer.append`). -/
def appendLogEntry (logs : List String) (e : String) : List String :=
  let l := logs ++ [e]
  if l.length > 1000 then takeLast 1000 l else l

/-- One iteration's worth of external input to the streaming loop
(lines 78-91): the line `readline` returned, the wall-clock time at which
it is captured, whether some other thread ran `stop_mission_flag.set()`
just before this iteration's flag check, and whether the read itself
raised an I/O error. -/
structure LineEvent where
  line : String
  time : DateTimeVal
  extStopSet : Bool
  readRaises : Bool
deriving DecidableEq

/-- The external stop-flag write interleaved before an iteration. -/
def applyExtStop (e : LineEvent) (s : MissionState) : MissionState :=
  if e.extStopSet then { s with stopFlag := true } else s

/-- Line 85-86: build the timestamped entry from the stripped line and
append it to the buffer. -/
def appendState (e : LineEvent) (s : MissionState) : MissionState :=
  { s with logs := appendLogEntry s.logs (strftimeYmdHMS e.time ++ " - " ++ pyStrip e.line) }

/-- Result of the streaming loop: the states after each global write (in
order), the state when the loop is left, whether an exception escaped the
loop (to be caught by the worker's `except`), and whether
`current_process.terminate()` was called from inside the loop. -/
structure LoopResult where
  trace : List MissionState
  final : MissionState
  raised : Bool
  terminated : Bool
deriving DecidableEq

/-- Lines 78-91: `for line in iter(current_process.stdout.readline, ''):`.
Per line: check the stop flag (terminate the child and `break` if set);
otherwise skip blank lines, and append non-blank lines stripped and
timestamped.  The event list is the sequence of lines the child produces
before EOF. -/
def streamLoop : List LineEvent → MissionState → LoopResult
  | [], s => ⟨[], s, false, false⟩
  | e :: rest, s =>
    let s1 := applyExtStop e s
    let t1 := if e.extStopSet then [s1] else []
    if e.readRaises then ⟨t1, s1, true, false⟩
    else if s1.stopFlag then ⟨t1, s1, false, true⟩
    else if pyStrip e.line = "" then
      let r := streamLoop rest s1
      ⟨t1 ++ r.trace, r.final, r.raised, r.terminated⟩
    else
      let r := streamLoop rest (appendState e s1)
      ⟨t1 ++ appendState e s1 :: r.trace, r.final, r.raised, r.terminated⟩

/-- External inputs of one run of the worker `run_mission_background`:
whether `/app/launch.sh` exists (line 54), whether `subprocess.Popen`
itself raises (line 64), the handle of the spawned child, and the
streamed output lines. -/
structure MissionEnv where
  scriptExists : Bool
  spawnFails : Bool
  pid : Nat
  events : List LineEvent
deriving DecidableEq

/-- Result of the `try` block of `run_mission_background` (lines 41-94):
trace of states after each global write, state at the end of the block,
and whether an exception was raised (and caught by the `except` on
line 96). -/
structure BodyResult where
  trace : List MissionState
  final : MissionState
  raised : Bool
deriving DecidableEq

/-- The `try` block of `run_mission_background` (lines 41-94).  Early
return when the stop flag is already set (line 42); `FileNotFoundError`
when the launch script is missing (line 55); possible `Popen` failure;
otherwise `current_process` is recorded (line 64), then `is_running` is
set (line 74) — two separate writes — and the streaming loop runs.
`current_process.wait()` (line 93) changes no modelled global. -/
def runMissionBody (env : MissionEnv) (s0 : MissionState) : BodyResult :=
  if s0.stopFlag then ⟨[], s0, false⟩
  else if env.scriptExists then
    if env.spawnFails then ⟨[], s0, true⟩
    else
      let s1 := { s0 with currentProcess := some env.pid }
      let s2 := { s1 with isRunning := true }
      let r := streamLoop env.events s2
      ⟨s1 :: s2 :: r.trace, r.final, r.raised⟩
  else ⟨[], s0, true⟩

/-- The `finally` block (lines 98-102): three successive global writes,
`is_running = False`, `current_process = None`, `stop_mission_flag.clear()`. -/
def cleanupStates (s : MissionState) : List MissionState :=
  [{ s with isRunning := false },
   { s with isRunning := false, currentProcess := none },
   { s with isRunning := false, currentProcess := none, stopFlag := false }]

/-- Small-step reading of one whole run of `run_mission_background`: the
initial state followed by the state after every write the worker performs
to a modelled global.  The `finally` block always contributes the last
three states, whichever way the `try` block ended. -/
def runMissionTrace (env : MissionEnv) (s0 : MissionState) : List MissionState :=
  s0 :: (runMissionBody env s0).trace ++ cleanupStates (runMissionBody env s0).final

/-- The global state after `run_mission_background` returns: `finally`
has run (lines 98-101), and the worker thread is no longer alive because
its target function returned. -/
def run_mission_background (env : MissionEnv) (s0 : MissionState) : MissionState :=
  { (runMissionBody env s0).final with
      isRunning := false, currentProcess := none, stopFlag := false, threadAlive := false }

/-- A FastAPI `HTTPException(status_code=..., detail=...)`. -/
structure HttpError where
  statusCode : Nat
  detail : String
deriving DecidableEq

/-- Response body of `POST /start_mission`. -/
structure StartResponse where
  status : String
  message : String
deriving DecidableEq

/-- External input of one `start_mission` call: whether
`threading.Thread(...)` (line 151) raises, whether `mission_thread.start()`
(line 155) raises, and the message of that exception — the `try` block of
lines 148-161 whose `except` (lines 163-165) raises `HTTPException(500)`. -/
structure StartEnv where
  threadCtorFails : Bool
  startFails : Bool
  errMsg : String
deriving DecidableEq

/-- `POST /start_mission` (lines 138-165).  If `mission_thread` exists
and is alive, raise `HTTPException(400)` before touching anything.
Otherwise run the `try` block in source order: clear the stop flag
(line 150); construct the thread object (line 151) — on failure the
`except` raises `HTTPException(500)` with the flag already cleared;
start it (line 155) — on failure the `except` raises `HTTPException(500)`
with the handle assigned but not alive; on success return at once with
the worker alive and the remaining globals (`currentProcess`,
`isRunning`, `logs`) exactly as before, because the handler does not wait
for the worker.  The returned state records the writes performed before a
raise, since the `except` re-raises without undoing them. -/
def start_mission (env : StartEnv) (s : MissionState) :
    MissionState × Except HttpError StartResponse :=
  if s.threadSpawned && s.threadAlive then
    (s, .error ⟨400, "Mission already running"⟩)
  else
    let s1 := { s with stopFlag := false }
    if env.threadCtorFails then
      (s1, .error ⟨500, "Failed to start mission: " ++ env.errMsg⟩)
    else
      let s2 := { s1 with threadSpawned := true, threadAlive := false }
      if env.startFails then
        (s2, .error ⟨500, "Failed to start mission: " ++ env.errMsg⟩)
      else
        ({ s2 with threadAlive := true }, .ok ⟨"success", "WildWings mission started"⟩)

/-- External input of one `stop_mission` call: whether some step of the
`try` block (terminate / wait / kill / join) raises, and the message of
that exception. -/
structure StopEnv where
  throws : Bool
  errMsg : String
deriving DecidableEq

/-- Response body of `POST /stop_mission`. -/
structure StopResponse where
  status : String
  message : String
  was_running : Bool
deriving DecidableEq

/-- `POST /stop_mission` (lines 168-227).  No alive worker: immediate
success with `was_running = False`, no state touched (lines 174-180).
Otherwise set the stop flag, terminate/kill the child and join the worker
(external effects), then set `is_running = False` and report success; if
any step raises, the `except` branch (lines 218-227) still forces
`is_running = False` and the stop flag set, and returns an `"error"`
body — the handler never raises to its caller, so its type is total. -/
def stop_mission (env : StopEnv) (s : MissionState) : MissionState × StopResponse :=
  if s.threadSpawned && s.threadAlive then
    if env.throws then
      ({ s with isRunning := false, stopFlag := true },
       ⟨"error", "Error stopping mission: " ++ env.errMsg, true⟩)
    else
      ({ s with stopFlag := true, isRunning := false },
       ⟨"success", "Mission stopped successfully", true⟩)
  else
    (s, ⟨"success", "No mission currently running", false⟩)

/-- Response body of `GET /mission_status`. -/
structure StatusResponse where
  status : String
  thread_alive : Bool
  stop_requested : Bool
  is_running : Bool
  total_logs : Nat
  recent_logs : List String
deriving DecidableEq

/-- `GET /mission_status` (lines 229-249).  Pure projection: derives the
three-valued status from the flags, reports the raw flags, the buffer
size and `logs[-10:]`; assigns no global, so the state is returned
unchanged. -/
def mission_status (s : MissionState) : MissionState × StatusResponse :=
  let st :=
    if s.threadSpawned && s.threadAlive then
      if s.stopFlag then "stopping" else "running"
    else "idle"
  let recent := if s.logs.length > 10 then takeLast 10 s.logs else s.logs
  (s, ⟨st, if s.threadSpawned then s.threadAlive else false,
       s.stopFlag, s.isRunning, s.logs.length, recent⟩)

/-- External input of one `GET /logs` call: whether the configured log
file exists, its lines (as `readlines` returns them, trailing newline
included), whether opening/reading raises, and the exception message. -/
structure LogsEnv where
  fileExists : Bool
  fileLines : List String
  readRaises : Bool
  errMsg : String
deriving DecidableEq

/-- Response body of `GET /logs`.  The file-missing and error branches
return dictionaries without the `total_runtime_logs` key, hence the
`Option`. -/
structure LogsResponse where
  logs : List String
  total_lines : Nat
  runtime_logs : List String
  total_runtime_logs : Option Nat
deriving DecidableEq

/-- `GET /logs?lines=N` (lines 251-288, `lines` defaulting to 100).
Missing file: placeholder body with `logs[-lines:]` as runtime logs
(line 262).  Read failure: placeholder body with
`logs[-lines:] if logs else []` (line 287).  Otherwise
`all_lines[-lines:] if len(all_lines) > lines else all_lines`, stripped
and with blank lines dropped, for the file side, and
`logs[-lines:] if len(logs) > lines else logs` for the buffer side,
together with both total counts.  `lines` is never validated or clamped,
so it is taken as a raw integer. -/
def get_logs (env : LogsEnv) (lines : Int) (s : MissionState) : MissionState × LogsResponse :=
  if env.fileExists then
    if env.readRaises then
      (s, ⟨["Error reading logs: " ++ env.errMsg], 0,
           if s.logs.isEmpty then [] else pySliceFrom (-lines) s.logs, none⟩)
    else
      let allLines := env.fileLines
      let recent := if (allLines.length : Int) > lines then pySliceFrom (-lines) allLines else allLines
      let fileLogs := (recent.map pyStrip).filter (fun x => x != "")
      let runtime := if ((s.logs.length : Int) > lines) then pySliceFrom (-lines) s.logs else s.logs
      (s, ⟨fileLogs, allLines.length, runtime, some s.logs.length⟩)
  else
    (s, ⟨["Log file not found"], 0, pySliceFrom (-lines) s.logs, none⟩)

/-- Default of the `lines` query parameter (line 252). -/
def defaultLines : Int := 100

theorem takeLast_length_le (n : Nat) (l : List α) : (takeLast n l).length ≤ n := by
  simp only [takeLast, List.length_drop]
  omega

theorem takeLast_of_le {n : Nat} {l : List α} (h : l.length ≤ n) : takeLast n l = l := by
  simp [takeLast, Nat.sub_eq_zero_of_le h]

theorem takeLast_append_takeLast (n : Nat) (xs ys : List α) :
    takeLast n (takeLast n xs ++ ys) = takeLast n (xs ++ ys) := by
  simp only [takeLast, List.length_append, List.length_drop,
    List.drop_append_eq_append_drop, List.drop_drop]
  congr 1
  · congr 1
    omega
  · congr 1
    omega

theorem appendLogEntry_eq (l : List String) (e : String) :
    appendLogEntry l e = takeLast 1000 (l ++ [e]) := by
  simp only [appendLogEntry]
  split
  · rfl
  · next h => exact (takeLast_of_le (by omega)).symm

theorem appendLogEntry_length_le (l : List String) (e : String) :
    (appendLogEntry l e).length ≤ 1000 := by
  rw [appendLogEntry_eq]
  exact takeLast_length_le 1000 (l ++ [e])

theorem foldl_appendLogEntry (es : List String) : ∀ l : List String, l.length ≤ 1000 →
    List.foldl appendLogEntry l es = takeLast 1000 (l ++ es) := by
  induction es with
  | nil =>
      intro l h
      simp [takeLast_of_le h]
  | cons e es ih =>
      intro l h
      rw [List.foldl_cons, ih _ (appendLogEntry_length_le l e), appendLogEntry_eq,
        takeLast_append_takeLast, List.append_assoc]
      rfl

theorem pySliceFrom_neg_of_pos {n : Int} (h : 0 < n) (xs : List α) :
    pySliceFrom (-n) xs = takeLast n.toNat xs := by
  simp only [pySliceFrom]
  rw [if_neg (by omega), neg_neg]

theorem pySliceFrom_of_nonneg {k : Int} (h : 0 ≤ k) (xs : List α) :
    pySliceFrom k xs = xs.drop k.toNat := by
  simp [pySliceFrom, h]

theorem digitChar_lt_isDigit : ∀ m : Nat, m < 10 → (Nat.digitChar m).isDigit = true := by
  decide

theorem digitChar_mod_isDigit (x : Nat) : (Nat.digitChar (x % 10)).isDigit = true :=
  digitChar_lt_isDigit (x % 10) (Nat.mod_lt x (by norm_num))

theorem isTsFormat_strftime (d : DateTimeVal) : isTsFormat (strftimeYmdHMS d) = true := by
  simp [isTsFormat, strftimeYmdHMS, digitChar_mod_isDigit]

theorem applyExtStop_currentProcess (e : LineEvent) (s : MissionState) :
    (applyExtStop e s).currentProcess = s.currentProcess := by
  simp only [applyExtStop]
  split <;> rfl

theorem applyExtStop_isRunning (e : LineEvent) (s : MissionState) :
    (applyExtStop e s).isRunning = s.isRunning := by
  simp only [applyExtStop]
  split <;> rfl

theorem applyExtStop_logs (e : LineEvent) (s : MissionState) :
    (applyExtStop e s).logs = s.logs := by
  simp only [applyExtStop]
  split <;> rfl

theorem appendState_currentProcess (e : LineEvent) (s : MissionState) :
    (appendState e s).currentProcess = s.currentProcess := rfl

theorem appendState_isRunning (e : LineEvent) (s : MissionState) :
    (appendState e s).isRunning = s.isRunning := rfl

theorem appendState_logs_le (e : LineEvent) (s : MissionState) :
    (appendState e s).logs.length ≤ 1000 :=
  appendLogEntry_length_le _ _

theorem streamLoop_nil (s : MissionState) : streamLoop [] s = ⟨[], s, false, false⟩ := rfl

theorem streamLoop_cons_raise (e : LineEvent) (rest : List LineEvent) (s : MissionState)
    (hr : e.readRaises = true) :
    streamLoop (e :: rest) s =
      ⟨if e.extStopSet then [applyExtStop e s] else [], applyExtStop e s, true, false⟩ := by
  simp [streamLoop, hr]

theorem streamLoop_cons_stop (e : LineEvent) (rest : List LineEvent) (s : MissionState)
    (hr : e.readRaises = false) (hst : (applyExtStop e s).stopFlag = true) :
    streamLoop (e :: rest) s =
      ⟨if e.extStopSet then [applyExtStop e s] else [], applyExtStop e s, false, true⟩ := by
  simp [streamLoop, hr, hst]

theorem streamLoop_cons_blank (e : LineEvent) (rest : List LineEvent) (s : MissionState)
    (hr : e.readRaises = false) (hst : (applyExtStop e s).stopFlag = false)
    (hb : pyStrip e.line = "") :
    streamLoop (e :: rest) s =
      ⟨(if e.extStopSet then [applyExtStop e s] else [])
          ++ (streamLoop rest (applyExtStop e s)).trace,
        (streamLoop rest (applyExtStop e s)).final,
        (streamLoop rest (applyExtStop e s)).raised,
        (streamLoop rest (applyExtStop e s)).terminated⟩ := by
  simp [streamLoop, hr, hst, hb]

theorem streamLoop_cons_text (e : LineEvent) (rest : List LineEvent) (s : MissionState)
    (hr : e.readRaises = false) (hst : (applyExtStop e s).stopFlag = false)
    (hb : ¬ pyStrip e.line = "") :
    streamLoop (e :: rest) s =
      ⟨(if e.extStopSet then [applyExtStop e s] else [])
          ++ appendState e (applyExtStop e s)
            :: (streamLoop rest (appendState e (applyExtStop e s))).trace,
        (streamLoop rest (appendState e (applyExtStop e s))).final,
        (streamLoop rest (appendState e (applyExtStop e s))).raised,
        (streamLoop rest (appendState e (applyExtStop e s))).terminated⟩ := by
  simp [streamLoop, hr, hst, hb]

/-- Every state the streaming loop passes through (trace members and the
final state) is reached from the entry state by external stop-flag sets
and log appends only; so any property preserved by those two updates is
an invariant of the loop. -/
theorem streamLoop_preserve (P : MissionState → Prop)
    (hstop : ∀ s, P s → P { s with stopFlag := true })
    (happ : ∀ (e : LineEvent) (s : MissionState), P s → P (appendState e s)) :
    ∀ (evts : List LineEvent) (s : MissionState), P s →
      P (streamLoop evts s).final ∧ ∀ t ∈ (streamLoop evts s).trace, P t := by
  intro evts
  induction evts with
  | nil =>
      intro s h
      rw [streamLoop_nil]
      exact ⟨h, by simp⟩
  | cons e rest ih =>
      intro s h
      have h1 : P (applyExtStop e s) := by
        unfold applyExtStop
        split
        · exact hstop s h
        · exact h
      have htr1 : ∀ t ∈ (if e.extStopSet then [applyExtStop e s] else []), P t := by
        intro t ht
        split at ht
        · simp only [List.mem_singleton] at ht
          exact ht ▸ h1
        · simp at ht
      by_cases hr : e.readRaises = true
      · rw [streamLoop_cons_raise e rest s hr]
        exact ⟨h1, htr1⟩
      · replace hr : e.readRaises = false := by simpa using hr
        by_cases hst : (applyExtStop e s).stopFlag = true
        · rw [streamLoop_cons_stop e rest s hr hst]
          exact ⟨h1, htr1⟩
        · replace hst : (applyExtStop e s).stopFlag = false := by simpa using hst
          by_cases hb : pyStrip e.line = ""
          · rw [streamLoop_cons_blank e rest s hr hst hb]
            refine ⟨(ih _ h1).1, ?_⟩
            intro t ht
            rcases List.mem_append.mp ht with ht | ht
            · exact htr1 t ht
            · exact (ih _ h1).2 t ht
          · rw [streamLoop_cons_text e rest s hr hst hb]
            have h2 : P (appendState e (applyExtStop e s)) := happ e _ h1
            refine ⟨(ih _ h2).1, ?_⟩
            intro t ht
            rcases List.mem_append.mp ht with ht | ht
            · exact htr1 t ht
            · rcases List.mem_cons.mp ht with ht | ht
              · exact ht ▸ h2
              · exact (ih _ h2).2 t ht

theorem cleanup_preserve (P : MissionState → Prop)
    (hc1 : ∀ s, P s → P { s with isRunning := false })
    (hc2 : ∀ s, P s → P { s with isRunning := false, currentProcess := none })
    (hc3 : ∀ s, P s → P { s with isRunning := false, currentProcess := none, stopFlag := false })
    (s : MissionState) (h : P s) : ∀ t ∈ cleanupStates s, P t := by
  intro t ht
  simp only [cleanupStates, List.mem_cons, List.not_mem_nil, or_false] at ht
  rcases ht with rfl | rfl | rfl
  exacts [hc1 s h, hc2 s h, hc3 s h]

/-- Every state in the small-step trace of one worker run is reached from
the initial state by the worker's atomic writes; any property preserved
by each individual write (in the order the source performs them) holds at
every point of the run. -/
theorem runMissionTrace_preserve (env : MissionEnv) (P : MissionState → Prop)
    (hstop : ∀ s, P s → P { s with stopFlag := true })
    (happ : ∀ (e : LineEvent) (s : MissionState), P s → P (appendState e s))
    (hproc : ∀ s, P s → P { s with currentProcess := some env.pid })
    (hrun : ∀ s, P s → P { s with currentProcess := some env.pid, isRunning := true })
    (hc1 : ∀ s, P s → P { s with isRunning := false })
    (hc2 : ∀ s, P s → P { s with isRunning := false, currentProcess := none })
    (hc3 : ∀ s, P s → P { s with isRunning := false, currentProcess := none, stopFlag := false })
    (s0 : MissionState) (h : P s0) :
    ∀ t ∈ runMissionTrace env s0, P t := by
  have hbody : (∀ t ∈ (runMissionBody env s0).trace, P t) ∧ P (runMissionBody env s0).final := by
    unfold runMissionBody
    split
    · exact ⟨by simp, h⟩
    · split
      · split
        · exact ⟨by simp, h⟩
        · have h1 : P { s0 with currentProcess := some env.pid } := hproc s0 h
          have h2 : P { s0 with currentProcess := some env.pid, isRunning := true } :=
            hrun s0 h
          have hl := streamLoop_preserve P hstop happ env.events
            { s0 with currentProcess := some env.pid, isRunning := true } h2
          refine ⟨?_, hl.1⟩
          intro t ht
          rcases List.mem_cons.mp ht with rfl | ht
          · exact h1
          rcases List.mem_cons.mp ht with rfl | ht
          · exact h2
          exact hl.2 t ht
      · exact ⟨by simp, h⟩
  intro t ht
  rw [runMissionTrace] at ht
  rcases List.mem_cons.mp ht with rfl | ht
  · exact h
  rcases List.mem_append.mp ht with ht | ht
  · exact hbody.1 t ht
  · exact cleanup_preserve P hc1 hc2 hc3 _ hbody.2 t ht

/-- Boolean form of the invariant that actually holds: `is_running` is
true only while `current_process` is non-null. -/
def runImpliesProc (s : MissionState) : Bool := !s.isRunning || s.currentProcess.isSome

/-- Boolean form of the log-buffer capacity invariant. -/
def withinCap (s : MissionState) : Bool := decide (s.logs.length ≤ 1000)

theorem runImpliesProc_iff (s : MissionState) :
    runImpliesProc s = true ↔ (s.isRunning = true → s.currentProcess.isSome = true) := by
  cases hr : s.isRunning <;> simp [runImpliesProc, hr]

theorem withinCap_iff (s : MissionState) :
    withinCap s = true ↔ s.logs.length ≤ 1000 := by
  simp [withinCap]

/-- Boolean form of claim C3's invariant exactly as stated:
`current_process` is non-null only while `is_running` is true. -/
def procOnlyWhileRunning (s : MissionState) : Bool :=
  !s.currentProcess.isSome || s.isRunning

/-- State at boot / with no worker: all globals at their initial values
(lines 32-36). -/
def stIdle : MissionState :=
  { threadSpawned := false, threadAlive := false, stopFlag := false,
    currentProcess := none, isRunning := false, logs := [] }

/-- State with an alive worker mid-mission. -/
def stBusy : MissionState :=
  { threadSpawned := true, threadAlive := true, stopFlag := false,
    currentProcess := some 3, isRunning := true, logs := ["2024-05-01 12:00:00 - ok"] }

/-- State with an alive worker after a stop request. -/
def stStopping : MissionState := { stBusy with stopFlag := true }

/-- State as the worker begins executing, right after `start_mission`
spawned it: thread alive, stop flag cleared, no process yet. -/
def stWorkerStart : MissionState :=
  { threadSpawned := true, threadAlive := true, stopFlag := false,
    currentProcess := none, isRunning := false, logs := [] }

/-- A run where the script exists, `Popen` succeeds and the child exits
immediately with no output. -/
def envRun : MissionEnv := { scriptExists := true, spawnFails := false, pid := 7, events := [] }

/-- A `start_mission` call during which neither thread construction nor
`start()` raises. -/
def envStartOk : StartEnv := { threadCtorFails := false, startFails := false, errMsg := "" }

/-- A `start_mission` call during which `mission_thread.start()` raises. -/
def envStartBad : StartEnv := { threadCtorFails := false, startFails := true, errMsg := "boom" }

/-- C1: `POST /start_mission` fails with a 400 `HTTPException` and
changes nothing when the worker thread exists and is alive; otherwise it
clears the stop flag and — when neither thread construction nor
`start()` raises — spawns exactly one fresh worker (thread handle set
and alive) and answers success at once, with `current_process`,
`is_running` and the log buffer untouched because it does not wait for
the subprocess.  When a spawn step does raise, the `except` branch
(lines 163-165) raises `HTTPException(500)` instead: the stop flag is
already cleared, no alive worker exists, and the mission-loop globals
are untouched. -/
theorem start_mission_spec (env : StartEnv) (s : MissionState) :
    ((s.threadSpawned && s.threadAlive) = true →
      start_mission env s = (s, .error ⟨400, "Mission already running"⟩)) ∧
    ((s.threadSpawned && s.threadAlive) = false →
      env.threadCtorFails = false → env.startFails = false →
      start_mission env s =
        ({ s with stopFlag := false, threadSpawned := true, threadAlive := true },
         .ok ⟨"success", "WildWings mission started"⟩)) ∧
    ((s.threadSpawned && s.threadAlive) = false →
      (env.threadCtorFails = true ∨ env.startFails = true) →
      (start_mission env s).2 = .error ⟨500, "Failed to start mission: " ++ env.errMsg⟩ ∧
      (start_mission env s).1.stopFlag = false ∧
      ((start_mission env s).1.threadSpawned && (start_mission env s).1.threadAlive) = false ∧
      (start_mission env s).1.currentProcess = s.currentProcess ∧
      (start_mission env s).1.isRunning = s.isRunning ∧
      (start_mission env s).1.logs = s.logs) := by
  refine ⟨?_, ?_, ?_⟩
  · intro h
    simp [start_mission, h]
  · intro h h1 h2
    simp [start_mission, h, h1, h2]
  · intro h hf
    by_cases hc : env.threadCtorFails = true
    · simp [start_mission, h, hc]
    · rcases hf with hf | hf
      · exact absurd hf hc
      · simp [start_mission, h, hc, hf]

/-- Witness for C1: the 400, success and 500 branches at concrete inputs. -/
theorem start_mission_spec_witness :
    start_mission envStartOk stBusy = (stBusy, .error ⟨400, "Mission already running"⟩) ∧
    start_mission envStartOk stIdle =
      ({ stIdle with stopFlag := false, threadSpawned := true, threadAlive := true },
       .ok ⟨"success", "WildWings mission started"⟩) ∧
    ((start_mission envStartBad stIdle).2 =
        .error ⟨500, "Failed to start mission: " ++ envStartBad.errMsg⟩ ∧
      (start_mission envStartBad stIdle).1.stopFlag = false ∧
      ((start_mission envStartBad stIdle).1.threadSpawned &&
        (start_mission envStartBad stIdle).1.threadAlive) = false ∧
      (start_mission envStartBad stIdle).1.currentProcess = stIdle.currentProcess ∧
      (start_mission envStartBad stIdle).1.isRunning = stIdle.isRunning ∧
      (start_mission envStartBad stIdle).1.logs = stIdle.logs) :=
  ⟨(start_mission_spec envStartOk stBusy).1 rfl,
   (start_mission_spec envStartOk stIdle).2.1 rfl rfl rfl,
   (start_mission_spec envStartBad stIdle).2.2 rfl (Or.inr rfl)⟩

/-- C2: starting from a buffer within capacity, every state the mission
loop passes through keeps the in-memory log buffer at 1000 entries or
fewer; and a sequence of appends into an empty buffer leaves exactly the
most recent 1000 entries in insertion order (for any number of inserts,
in particular 1500). -/
theorem logBuffer_capacity (env : MissionEnv) (s0 : MissionState) (es : List String)
    (h : s0.logs.length ≤ 1000) :
    (runMissionTrace env s0).all withinCap = true ∧
    List.foldl appendLogEntry [] es = takeLast 1000 es := by
  constructor
  · rw [List.all_eq_true]
    intro t ht
    rw [withinCap_iff]
    refine runMissionTrace_preserve env (fun s => s.logs.length ≤ 1000)
      (fun s hs => hs) (fun e s hs => appendState_logs_le e s)
      (fun s hs => hs) (fun s hs => hs) (fun s hs => hs) (fun s hs => hs) (fun s hs => hs)
      s0 h t ht
  · have := foldl_appendLogEntry es [] (by simp)
    simpa using this

/-- Witness for C2. -/
theorem logBuffer_capacity_witness :
    (runMissionTrace envRun stWorkerStart).all withinCap = true ∧
    List.foldl appendLogEntry [] ["a", "b"] = takeLast 1000 ["a", "b"] :=
  logBuffer_capacity envRun stWorkerStart ["a", "b"] (by decide)

/-- Counterexample to C3 as stated: in the run where the script exists
and `Popen` succeeds, the worker records `current_process` (line 64)
nine lines before it sets `is_running = True` (line 74), so the trace
contains a state with a process handle recorded while `is_running` is
still false (and again between lines 99 and 100 of the cleanup). -/
theorem procOnlyWhileRunning_cex :
    (runMissionTrace envRun stWorkerStart).all procOnlyWhileRunning = false := by
  decide

/-- C3 amended: the converse invariant is the one the write ordering
maintains — `is_running` is true only while `current_process` is
non-null.  It holds at every point of any worker run whose initial state
satisfies it. -/
theorem running_implies_process (env : MissionEnv) (s0 : MissionState)
    (h : runImpliesProc s0 = true) :
    (runMissionTrace env s0).all runImpliesProc = true := by
  rw [List.all_eq_true]
  intro t ht
  rw [runImpliesProc_iff]
  refine runMissionTrace_preserve env
    (fun s => s.isRunning = true → s.currentProcess.isSome = true)
    (fun s hs => hs) (fun e s hs => hs)
    (fun s hs _ => rfl) (fun s hs _ => rfl)
    (fun s hs hh => absurd hh (by simp))
    (fun s hs hh => absurd hh (by simp))
    (fun s hs hh => absurd hh (by simp))
    s0 ((runImpliesProc_iff s0).mp h) t ht

/-- Witness for the amended C3. -/
theorem running_implies_process_witness :
    (runMissionTrace envRun stWorkerStart).all runImpliesProc = true :=
  running_implies_process envRun stWorkerStart (by decide)

/-- C4: whatever the environment does (stop already requested, missing
script, spawn failure, I/O error mid-stream, forced stop, or natural
EOF), the worker function always returns — it is total, no exception
escapes — with the `finally` block run: `is_running` false, the process
handle cleared, the stop flag cleared; the trace always ends with the
three cleanup writes; and the resulting state is fully reset for a
subsequent `start_mission`: its 400 guard sees no alive worker, so a
call whose own spawn steps do not raise returns success. -/
theorem worker_cleanup_total (env : MissionEnv) (s0 : MissionState) :
    (run_mission_background env s0).isRunning = false ∧
    (run_mission_background env s0).currentProcess = none ∧
    (run_mission_background env s0).stopFlag = false ∧
    runMissionTrace env s0 =
      s0 :: (runMissionBody env s0).trace ++ cleanupStates (runMissionBody env s0).final ∧
    ((run_mission_background env s0).threadSpawned &&
      (run_mission_background env s0).threadAlive) = false ∧
    start_mission envStartOk (run_mission_background env s0) =
      ({ run_mission_background env s0 with
           stopFlag := false, threadSpawned := true, threadAlive := true },
       .ok ⟨"success", "WildWings mission started"⟩) := by
  refine ⟨rfl, rfl, rfl, rfl, ?_, ?_⟩
  · simp [run_mission_background]
  · simp [start_mission, run_mission_background, envStartOk]

/-- A `stop_mission` call during which no step of the `try` block raises. -/
def envStopOk : StopEnv := { throws := false, errMsg := "" }

/-- A `stop_mission` call during which some step raises. -/
def envStopBad : StopEnv := { throws := true, errMsg := "boom" }

/-- C5: `POST /stop_mission` with an alive worker never raises (its type
is total — every path returns a response body): it reports
`was_running = True` and forces `is_running = False`; without an internal
exception the body says `"success"`, and when any step throws the
`except` branch still forces `is_running = False` with the stop flag set
and answers `"error"` in the body instead of an HTTP error. -/
theorem stop_mission_alive_spec (env : StopEnv) (s : MissionState)
    (h : (s.threadSpawned && s.threadAlive) = true) :
    (stop_mission env s).2.was_running = true ∧
    (stop_mission env s).1.isRunning = false ∧
    (env.throws = false → (stop_mission env s).2.status = "success") ∧
    (env.throws = true →
      (stop_mission env s).2.status = "error" ∧ (stop_mission env s).1.stopFlag = true) := by
  by_cases ht : env.throws = true
  · simp [stop_mission, h, ht]
  · simp [stop_mission, h, ht]

/-- Witness for C5: the no-throw and throw cases at a running state. -/
theorem stop_mission_alive_spec_witness :
    ((stop_mission envStopOk stBusy).2.was_running = true ∧
      (stop_mission envStopOk stBusy).1.isRunning = false ∧
      (envStopOk.throws = false → (stop_mission envStopOk stBusy).2.status = "success") ∧
      (envStopOk.throws = true →
        (stop_mission envStopOk stBusy).2.status = "error" ∧
        (stop_mission envStopOk stBusy).1.stopFlag = true)) ∧
    ((stop_mission envStopBad stBusy).2.status = "error" ∧
      (stop_mission envStopBad stBusy).1.stopFlag = true) :=
  ⟨stop_mission_alive_spec envStopOk stBusy rfl,
   (stop_mission_alive_spec envStopBad stBusy rfl).2.2.2 rfl⟩

/-- C6: `GET /mission_status` computes the three-valued status fresh
from the current flags — `"running"` iff the worker is alive and no stop
is pending, `"stopping"` iff alive with the stop flag set, `"idle"`
otherwise — reports the raw flags, the buffer size and exactly the last
10 buffered entries, and returns the state unchanged. -/
theorem mission_status_spec (s : MissionState) :
    (mission_status s).1 = s ∧
    ((s.threadSpawned && s.threadAlive) = true → s.stopFlag = false →
      (mission_status s).2.status = "running") ∧
    ((s.threadSpawned && s.threadAlive) = true → s.stopFlag = true →
      (mission_status s).2.status = "stopping") ∧
    ((s.threadSpawned && s.threadAlive) = false →
      (mission_status s).2.status = "idle") ∧
    (mission_status s).2.recent_logs = takeLast 10 s.logs ∧
    (mission_status s).2.recent_logs.length ≤ 10 ∧
    (mission_status s).2.thread_alive = (s.threadSpawned && s.threadAlive) ∧
    (mission_status s).2.stop_requested = s.stopFlag ∧
    (mission_status s).2.is_running = s.isRunning ∧
    (mission_status s).2.total_logs = s.logs.length := by
  have hrec : (mission_status s).2.recent_logs = takeLast 10 s.logs := by
    simp only [mission_status]
    split
    · rfl
    · next hle => exact (takeLast_of_le (by omega)).symm
  refine ⟨rfl, ?_, ?_, ?_, hrec, ?_, ?_, rfl, rfl, rfl⟩
  · intro h1 h2
    simp [mission_status, h1, h2]
  · intro h1 h2
    simp [mission_status, h1, h2]
  · intro h1
    simp [mission_status, h1]
  · rw [hrec]
    exact takeLast_length_le 10 s.logs
  · cases hsp : s.threadSpawned <;> simp [mission_status, hsp]

/-- Witness for C6: the three statuses at concrete states. -/
theorem mission_status_spec_witness :
    (mission_status stBusy).2.status = "running" ∧
    (mission_status stStopping).2.status = "stopping" ∧
    (mission_status stIdle).2.status = "idle" :=
  ⟨(mission_status_spec stBusy).2.1 rfl rfl,
   (mission_status_spec stStopping).2.2.1 rfl rfl,
   (mission_status_spec stIdle).2.2.2.1 rfl⟩

/-- C7: `POST /stop_mission` with no alive worker is an idempotent
no-op: it returns success with `was_running = False`, leaves every piece
of mission state (flags, process handle, log buffer) unchanged, and the
derived status stays `"idle"`. -/
theorem stop_mission_idle_spec (env : StopEnv) (s : MissionState)
    (h : (s.threadSpawned && s.threadAlive) = false) :
    stop_mission env s = (s, ⟨"success", "No mission currently running", false⟩) ∧
    (mission_status s).2.status = "idle" := by
  constructor
  · simp [stop_mission, h]
  · simp [mission_status, h]

/-- Witness for C7. -/
theorem stop_mission_idle_spec_witness :
    stop_mission envStopOk stIdle =
      (stIdle, ⟨"success", "No mission currently running", false⟩) ∧
    (mission_status stIdle).2.status = "idle" :=
  stop_mission_idle_spec envStopOk stIdle rfl

/-- C8: per line of the child's combined output (when the read itself
does not raise): if the stop flag is set at the check, the child is
terminated (`terminated = true`) and the loop exits with the buffer as it
was — the triggering line is not appended; a line that strips to blank is
never appended (the loop continues as if the line were absent); a
non-blank line is appended as its stripped text prefixed with the capture
timestamp and `" - "`, and the timestamp is in `YYYY-MM-DD HH:MM:SS`
format. -/
theorem stream_line_spec (e : LineEvent) (rest : List LineEvent) (s : MissionState)
    (hr : e.readRaises = false) :
    ((applyExtStop e s).stopFlag = true →
      streamLoop (e :: rest) s =
        ⟨if e.extStopSet then [applyExtStop e s] else [], applyExtStop e s, false, true⟩ ∧
      (applyExtStop e s).logs = s.logs) ∧
    ((applyExtStop e s).stopFlag = false → pyStrip e.line = "" →
      (streamLoop (e :: rest) s).final = (streamLoop rest (applyExtStop e s)).final ∧
      (applyExtStop e s).logs = s.logs) ∧
    ((applyExtStop e s).stopFlag = false → ¬ pyStrip e.line = "" →
      (streamLoop (e :: rest) s).final =
        (streamLoop rest (appendState e (applyExtStop e s))).final ∧
      (appendState e (applyExtStop e s)).logs =
        appendLogEntry s.logs (strftimeYmdHMS e.time ++ " - " ++ pyStrip e.line)) ∧
    isTsFormat (strftimeYmdHMS e.time) = true := by
  refine ⟨?_, ?_, ?_, isTsFormat_strftime e.time⟩
  · intro hst
    exact ⟨streamLoop_cons_stop e rest s hr hst, applyExtStop_logs e s⟩
  · intro hst hb
    rw [streamLoop_cons_blank e rest s hr hst hb]
    exact ⟨rfl, applyExtStop_logs e s⟩
  · intro hst hb
    rw [streamLoop_cons_text e rest s hr hst hb]
    refine ⟨rfl, ?_⟩
    simp [appendState, applyExtStop_logs]

/-- A concrete capture time. -/
def dt0 : DateTimeVal := { year := 2024, month := 5, day := 17, hour := 9, minute := 30, second := 5 }

/-- A non-blank output line. -/
def evText : LineEvent := { line := "  hello world\n", time := dt0, extStopSet := false, readRaises := false }

/-- A blank output line. -/
def evBlank : LineEvent := { line := "\n", time := dt0, extStopSet := false, readRaises := false }

/-- A line read just after an external stop request. -/
def evStop : LineEvent := { line := "ignored\n", time := dt0, extStopSet := true, readRaises := false }

/-- Witness for C8: the three per-line behaviours at concrete events. -/
theorem stream_line_spec_witness :
    (streamLoop [evStop] stBusy =
        ⟨[applyExtStop evStop stBusy], applyExtStop evStop stBusy, false, true⟩ ∧
      (applyExtStop evStop stBusy).logs = stBusy.logs) ∧
    ((streamLoop [evBlank] stIdle).final = (streamLoop [] (applyExtStop evBlank stIdle)).final ∧
      (applyExtStop evBlank stIdle).logs = stIdle.logs) ∧
    ((streamLoop [evText] stIdle).final =
        (streamLoop [] (appendState evText (applyExtStop evText stIdle))).final ∧
      (appendState evText (applyExtStop evText stIdle)).logs =
        appendLogEntry stIdle.logs (strftimeYmdHMS evText.time ++ " - " ++ pyStrip evText.line)) ∧
    isTsFormat (strftimeYmdHMS evText.time) = true :=
  ⟨(stream_line_spec evStop [] stBusy rfl).1 rfl,
   (stream_line_spec evBlank [] stIdle rfl).2.1 rfl (by decide),
   (stream_line_spec evText [] stIdle rfl).2.2.1 rfl (by decide),
   (stream_line_spec evText [] stIdle rfl).2.2.2⟩

theorem recent_eq_takeLast {n : Int} (hn : 0 < n) (xs : List α) :
    (if (xs.length : Int) > n then pySliceFrom (-n) xs else xs) = takeLast n.toNat xs := by
  split
  · exact pySliceFrom_neg_of_pos hn xs
  · next h => exact (takeLast_of_le (by omega)).symm

theorem recent_eq_drop {k : Int} (hk : k ≤ 0) (xs : List α) :
    (if (xs.length : Int) > k then pySliceFrom (-k) xs else xs) = xs.drop (-k).toNat := by
  split
  · exact pySliceFrom_of_nonneg (by omega) xs
  · next h =>
      have hlen : xs.length = 0 := by omega
      rw [List.length_eq_zero.mp hlen]
      simp

/-- Success branch of `get_logs` (file exists, read succeeds), as one
equation. -/
theorem get_logs_ok (env : LogsEnv) (lines : Int) (s : MissionState)
    (hf : env.fileExists = true) (hr : env.readRaises = false) :
    get_logs env lines s =
      (s, ⟨((if (env.fileLines.length : Int) > lines then pySliceFrom (-lines) env.fileLines
              else env.fileLines).map pyStrip).filter (fun x => x != ""),
           env.fileLines.length,
           if (s.logs.length : Int) > lines then pySliceFrom (-lines) s.logs else s.logs,
           some s.logs.length⟩) := by
  simp [get_logs, hf, hr]

/-- C9: for a positive requested count `n` (the query parameter defaults
to `defaultLines = 100`), a successful `GET /logs` mutates nothing and
returns at most `n` entries from each source: exactly the last `n`
buffered entries, and the last `n` file lines (stripped, blank lines
dropped), together with both total counts. -/
theorem get_logs_pos_spec (env : LogsEnv) (s : MissionState) (n : Int)
    (hn : 0 < n) (hf : env.fileExists = true) (hr : env.readRaises = false) :
    (get_logs env n s).1 = s ∧
    (get_logs env n s).2.logs.length ≤ n.toNat ∧
    (get_logs env n s).2.runtime_logs.length ≤ n.toNat ∧
    (get_logs env n s).2.runtime_logs = takeLast n.toNat s.logs ∧
    (get_logs env n s).2.logs =
      ((takeLast n.toNat env.fileLines).map pyStrip).filter (fun x => x != "") ∧
    (get_logs env n s).2.total_lines = env.fileLines.length ∧
    (get_logs env n s).2.total_runtime_logs = some s.logs.length ∧
    defaultLines = 100 := by
  rw [get_logs_ok env n s hf hr]
  refine ⟨rfl, ?_, ?_, ?_, ?_, rfl, rfl, rfl⟩
  · show (((if (env.fileLines.length : Int) > n then pySliceFrom (-n) env.fileLines
        else env.fileLines).map pyStrip).filter (fun x => x != "")).length ≤ n.toNat
    rw [recent_eq_takeLast hn]
    calc (((takeLast n.toNat env.fileLines).map pyStrip).filter (fun x => x != "")).length
        ≤ ((takeLast n.toNat env.fileLines).map pyStrip).length :=
          List.length_filter_le _ _
      _ = (takeLast n.toNat env.fileLines).length := List.length_map _ _
      _ ≤ n.toNat := takeLast_length_le _ _
  · show (if (s.logs.length : Int) > n then pySliceFrom (-n) s.logs else s.logs).length ≤ n.toNat
    rw [recent_eq_takeLast hn]
    exact takeLast_length_le _ _
  · exact recent_eq_takeLast hn s.logs
  · show ((if (env.fileLines.length : Int) > n then pySliceFrom (-n) env.fileLines
        else env.fileLines).map pyStrip).filter (fun x => x != "") =
      ((takeLast n.toNat env.fileLines).map pyStrip).filter (fun x => x != "")
    rw [recent_eq_takeLast hn]

/-- A `GET /logs` call where the configured file exists, holds seven
lines (one of them blank), and reading succeeds. -/
def envLogs : LogsEnv :=
  { fileExists := true,
    fileLines := ["l1\n", "l2\n", "\n", "l4\n", "l5\n", "l6\n", "l7\n"],
    readRaises := false, errMsg := "" }

/-- An idle state whose buffer holds seven runtime entries. -/
def stMany : MissionState :=
  { stIdle with logs := ["r1", "r2", "r3", "r4", "r5", "r6", "r7"] }

/-- Witness for C9 at `lines = 5` with more than 5 entries in each source. -/
theorem get_logs_pos_spec_witness :
    (get_logs envLogs 5 stMany).1 = stMany ∧
    (get_logs envLogs 5 stMany).2.logs.length ≤ (5 : Int).toNat ∧
    (get_logs envLogs 5 stMany).2.runtime_logs.length ≤ (5 : Int).toNat ∧
    (get_logs envLogs 5 stMany).2.runtime_logs = takeLast (5 : Int).toNat stMany.logs ∧
    (get_logs envLogs 5 stMany).2.logs =
      ((takeLast (5 : Int).toNat envLogs.fileLines).map pyStrip).filter (fun x => x != "") ∧
    (get_logs envLogs 5 stMany).2.total_lines = envLogs.fileLines.length ∧
    (get_logs envLogs 5 stMany).2.total_runtime_logs = some stMany.logs.length ∧
    defaultLines = 100 :=
  get_logs_pos_spec envLogs stMany 5 (by decide) rfl rfl

/-- C10: the `lines` parameter of `GET /logs` is never clamped or
validated: `lines = 0` makes the slice `logs[-0:]` the whole list, so the
response carries every runtime entry and every (stripped, non-blank) file
line; a negative value keeps all but the first `|lines|` entries of each
source. -/
theorem get_logs_nonpos_spec (env : LogsEnv) (s : MissionState) (k : Int)
    (hk : k ≤ 0) (hf : env.fileExists = true) (hr : env.readRaises = false) :
    (get_logs env k s).2.runtime_logs = s.logs.drop (-k).toNat ∧
    (get_logs env k s).2.logs =
      ((env.fileLines.drop (-k).toNat).map pyStrip).filter (fun x => x != "") ∧
    (k = 0 →
      (get_logs env k s).2.runtime_logs = s.logs ∧
      (get_logs env k s).2.logs = (env.fileLines.map pyStrip).filter (fun x => x != "")) := by
  rw [get_logs_ok env k s hf hr]
  have h1 : (if (s.logs.length : Int) > k then pySliceFrom (-k) s.logs else s.logs) =
      s.logs.drop (-k).toNat := recent_eq_drop hk s.logs
  have h2 : (if (env.fileLines.length : Int) > k then pySliceFrom (-k) env.fileLines
      else env.fileLines) = env.fileLines.drop (-k).toNat := recent_eq_drop hk env.fileLines
  refine ⟨h1, by rw [h2], ?_⟩
  intro hk0
  subst hk0
  constructor
  · show (if (s.logs.length : Int) > 0 then pySliceFrom (-0) s.logs else s.logs) = s.logs
    rw [h1]
    simp
  · show ((if (env.fileLines.length : Int) > 0 then pySliceFrom (-0) env.fileLines
        else env.fileLines).map pyStrip).filter (fun x => x != "") =
      (env.fileLines.map pyStrip).filter (fun x => x != "")
    rw [h2]
    simp

/-- Witness for C10 at `lines = 0` and `lines = -2`. -/
theorem get_logs_nonpos_spec_witness :
    ((get_logs envLogs 0 stMany).2.runtime_logs = stMany.logs.drop (-(0 : Int)).toNat ∧
      (get_logs envLogs 0 stMany).2.logs =
        ((envLogs.fileLines.drop (-(0 : Int)).toNat).map pyStrip).filter (fun x => x != "") ∧
      ((0 : Int) = 0 →
        (get_logs envLogs 0 stMany).2.runtime_logs = stMany.logs ∧
        (get_logs envLogs 0 stMany).2.logs =
          (envLogs.fileLines.map pyStrip).filter (fun x => x != ""))) ∧
    ((get_logs envLogs (-2) stMany).2.runtime_logs = stMany.logs.drop (-(-2 : Int)).toNat ∧
      (get_logs envLogs (-2) stMany).2.logs =
        ((envLogs.fileLines.drop (-(-2 : Int)).toNat).map pyStrip).filter (fun x => x != "") ∧
      ((-2 : Int) = 0 →
        (get_logs envLogs (-2) stMany).2.runtime_logs = stMany.logs ∧
        (get_logs envLogs (-2) stMany).2.logs =
          (envLogs.fileLines.map pyStrip).filter (fun x => x != ""))) :=
  ⟨get_logs_nonpos_spec envLogs stMany 0 (by decide) rfl rfl,
   get_logs_nonpos_spec envLogs stMany (-2) (by decide) rfl rfl⟩

end WildWings
